import Mathlib

/-!
Verification model of `filter_braunschweig.py`: a pipeline that fetches a
basketball-league iCalendar feed, keeps the events of one team, rewrites
their timestamps as Europe/Berlin wall-clock values, serializes a fresh
iCalendar document and atomically replaces the published file.

Python strings are modelled as Lean `String` (a list of Unicode code
points), bytes as `Nat` below 256, and `datetime` values as records of
calendar components plus an optional UTC offset standing for `tzinfo`.
-/

namespace BBLB

/-! ## Python string primitives -/

/-- ASCII lowercasing, the fragment of Python `str.lower` exercised by the
configured team variants and title tags (all uppercase letters that the
configuration compares are ASCII). -/
def pyLower (l : List Char) : List Char := l.map Char.toLower

/-- Python whitespace recognised by `str.strip` / `str.lstrip` (ASCII part). -/
def isPyWS (c : Char) : Bool :=
  c == ' ' || c == '\t' || c == '\n' || c == '\x0d' ||
  c == Char.ofNat 11 || c == Char.ofNat 12

/-- Python `str.lstrip()` with no argument. -/
def lstripWS (l : List Char) : List Char := l.dropWhile isPyWS

/-- Python `str.strip()` with no argument. -/
def stripWS (l : List Char) : List Char :=
  ((l.dropWhile isPyWS).reverse.dropWhile isPyWS).reverse

/-- Python `str.strip()` on `String`. -/
def pyStripS (s : String) : String := ⟨stripWS s.data⟩

/-- Python substring test `pat in hay`. -/
def containsSub (pat : List Char) : List Char → Bool
  | [] => pat.isEmpty
  | c :: t => pat.isPrefixOf (c :: t) || containsSub pat t

/-- Python `str.replace` for a single-character pattern: every occurrence of
`p` becomes the character list `r`. -/
def replaceChar (p : Char) (r : List Char) (l : List Char) : List Char :=
  l.flatMap (fun c => if c = p then r else [c])

/-! ## Configuration constants (from the script header) -/

def TEAM_VARIANTS : List String :=
  ["Löwen Braunschweig", "Loewen Braunschweig", "Braunschweig", "Basketball Löwen"]

def REMOVE_PREFIXES : List String := ["easyCredit BBL Spiel "]

def TZID : String := "Europe/Berlin"

/-- The `VTIMEZONE_BLOCK` triple-quoted template with `{tz}` already
substituted by `Europe/Berlin`; its internal line breaks are bare `\n`,
exactly as in the Python source. -/
def VTIMEZONE_BLOCK : String :=
  "BEGIN:VTIMEZONE\nTZID:Europe/Berlin\nX-LIC-LOCATION:Europe/Berlin\n" ++
  "BEGIN:STANDARD\nTZOFFSETFROM:+0200\nTZOFFSETTO:+0100\nTZNAME:CET\n" ++
  "DTSTART:19701025T030000\nEND:STANDARD\n" ++
  "BEGIN:DAYLIGHT\nTZOFFSETFROM:+0100\nTZOFFSETTO:+0200\nTZNAME:CEST\n" ++
  "DTSTART:19700329T020000\nEND:DAYLIGHT\nEND:VTIMEZONE\n"

/-! ## Event matching and title cleaning -/

/-- `matches_team`: lowercase the combined text and test each configured
variant, lowercased, for substring containment. -/
def matches_team (text : String) : Bool :=
  let txt := pyLower text.data
  TEAM_VARIANTS.any (fun v => containsSub (pyLower v.data) txt)

/-- The `for p in REMOVE_PREFIXES: ... break` loop body of `clean_summary`:
`n` is the stripped title; the first tag whose lowercase form starts the
lowercase title is removed (by character count) and the remainder
left-stripped; later tags are not tried. -/
def stripOneTag : List String → List Char → List Char
  | [], n => n
  | p :: ps, n =>
    if (pyLower p.data).isPrefixOf (pyLower n) then lstripWS (n.drop p.data.length)
    else stripOneTag ps n

/-- `clean_summary`: `None` and the empty string are returned as-is;
otherwise the title is stripped of surrounding whitespace and at most one
configured tag is removed from its front. -/
def clean_summary : Option String → Option String
  | none => none
  | some s => if s.data = [] then some s else some ⟨stripOneTag REMOVE_PREFIXES (stripWS s.data)⟩

/-! ## Datetimes -/

/-- A Python `datetime`: calendar and clock components, plus `tzoff`, the
`tzinfo` utc-offset in seconds (`none` for a naive value). -/
structure PyDateTime where
  year : Nat
  month : Nat
  day : Nat
  hour : Nat
  minute : Nat
  second : Nat
  microsecond : Nat
  tzoff : Option Int
deriving DecidableEq, Repr

/-- The time-valued objects `ensure_datetime` can receive from the `ics`
library: an object exposing `.naive` (its displayed components with the
zone dropped), an object exposing `.datetime`, or a plain `datetime`. -/
inductive IcsTimeValue where
  | arrowNaive (dt : PyDateTime)
  | withDatetime (dt : PyDateTime)
  | plain (dt : PyDateTime)
deriving DecidableEq, Repr

/-- The calendar/clock components an `IcsTimeValue` displays. -/
def IcsTimeValue.displayed : IcsTimeValue → PyDateTime
  | .arrowNaive dt => dt
  | .withDatetime dt => dt
  | .plain dt => dt

/-- `ensure_datetime`: unwrap `.naive` (a naive datetime) when present,
else `.datetime`, else return the object itself. -/
def ensure_datetime : Option IcsTimeValue → Option PyDateTime
  | none => none
  | some (.arrowNaive dt) => some { dt with tzoff := none }
  | some (.withDatetime dt) => some dt
  | some (.plain dt) => some dt

/-- `wallclock_as_local_naive`: copy the wall-clock components
(year, month, day, hour, minute, second, microsecond) into a datetime
labelled `LOCAL_TZ` and immediately drop the label again; the net effect is
the same components with no `tzinfo`, regardless of the source offset. -/
def wallclock_as_local_naive : Option PyDateTime → Option PyDateTime
  | none => none
  | some py =>
    some { year := py.year, month := py.month, day := py.day, hour := py.hour,
           minute := py.minute, second := py.second, microsecond := py.microsecond,
           tzoff := none }

/-- Fixed-width decimal rendering used by `strftime` fields. -/
def padNum (w n : Nat) : String :=
  let s := toString n
  ⟨List.replicate (w - s.length) '0'⟩ ++ s

/-- `format_dt_as_local_string`: `strftime("%Y%m%dT%H%M%S")`. -/
def format_dt_as_local_string (dt : PyDateTime) : String :=
  padNum 4 dt.year ++ padNum 2 dt.month ++ padNum 2 dt.day ++ "T" ++
  padNum 2 dt.hour ++ padNum 2 dt.minute ++ padNum 2 dt.second

/-! Civil-calendar arithmetic (Hinnant's algorithms) backing the genuine
zone conversion that `CREATED` stamps undergo via `astimezone(utc)`. -/

/-- Days from 1970-01-01 of a proleptic-Gregorian civil date. -/
def daysFromCivil (y m d : Int) : Int :=
  let y' := if m ≤ 2 then y - 1 else y
  let era := (if 0 ≤ y' then y' else y' - 399) / 400
  let yoe := y' - era * 400
  let mp := if 2 < m then m - 3 else m + 9
  let doy := (153 * mp + 2) / 5 + d - 1
  let doe := yoe * 365 + yoe / 4 - yoe / 100 + doy
  era * 146097 + doe - 719468

/-- Civil date of a day count from 1970-01-01. -/
def civilFromDays (z0 : Int) : Int × Int × Int :=
  let z := z0 + 719468
  let era := (if 0 ≤ z then z else z - 146096) / 146097
  let doe := z - era * 146097
  let yoe := (doe - doe / 1460 + doe / 36524 - doe / 146096) / 365
  let y := yoe + era * 400
  let doy := doe - (365 * yoe + yoe / 4 - yoe / 100)
  let mp := (5 * doy + 2) / 153
  let d := doy - (153 * mp + 2) / 5 + 1
  let m := if mp < 10 then mp + 3 else mp - 9
  (if mp < 10 then y else y + 1, m, d)

/-- Seconds from the epoch of a datetime's displayed clock read in UTC. -/
def naiveEpochSeconds (dt : PyDateTime) : Int :=
  daysFromCivil dt.year dt.month dt.day * 86400 +
    dt.hour * 3600 + dt.minute * 60 + dt.second

/-- The datetime displaying epoch second `t` in UTC (microseconds carried
separately and unchanged by `astimezone`). -/
def datetimeOfEpochSeconds (t : Int) (micro : Nat) : PyDateTime :=
  let days := t / 86400
  let rem := (t % 86400).toNat
  let ymd := civilFromDays days
  { year := ymd.1.toNat, month := ymd.2.1.toNat, day := ymd.2.2.toNat,
    hour := rem / 3600, minute := rem / 60 % 60, second := rem % 60,
    microsecond := micro, tzoff := some 0 }

/-- The `CREATED` branch: a naive creation stamp is marked UTC without
shifting; an aware one is genuinely converted with `astimezone(utc)`. -/
def createdToUTC (dt : PyDateTime) : PyDateTime :=
  match dt.tzoff with
  | none => { dt with tzoff := some 0 }
  | some off => datetimeOfEpochSeconds (naiveEpochSeconds dt - off) dt.microsecond

/-- `strftime("%Y%m%dT%H%M%SZ")` for UTC stamps. -/
def formatUTCZ (dt : PyDateTime) : String :=
  format_dt_as_local_string dt ++ "Z"

/-! ## iCalendar text escaping -/

/-- `escape_ical_text`: the four sequential `str.replace` calls, in source
order (backslash, newline, comma, semicolon). -/
def escape_ical_text (s : String) : String :=
  ⟨replaceChar ';' ['\\', ';']
    (replaceChar ',' ['\\', ',']
      (replaceChar '\n' ['\\', 'n']
        (replaceChar '\\' ['\\', '\\'] s.data)))⟩

/-- The inverse substitution: a backslash makes the following character
literal, with `\n` decoding to a newline. -/
def unescape_ical_list : List Char → List Char
  | [] => []
  | [c] => [c]
  | c :: d :: rest =>
    if c = '\\' then (if d = 'n' then '\n' else d) :: unescape_ical_list rest
    else c :: unescape_ical_list (d :: rest)

/-- `unescape_ical_text` on `String`. -/
def unescape_ical_text (s : String) : String := ⟨unescape_ical_list s.data⟩

/-! ## UTF-8 and SHA-1 (`key.encode("utf-8")`, `hashlib.sha1(...).hexdigest()`) -/

/-- UTF-8 encoding of one code point. -/
def utf8Char (c : Char) : List Nat :=
  let n := c.toNat
  if n < 128 then [n]
  else if n < 2048 then [192 ||| (n >>> 6), 128 ||| (n &&& 63)]
  else if n < 65536 then
    [224 ||| (n >>> 12), 128 ||| ((n >>> 6) &&& 63), 128 ||| (n &&& 63)]
  else
    [240 ||| (n >>> 18), 128 ||| ((n >>> 12) &&& 63),
     128 ||| ((n >>> 6) &&& 63), 128 ||| (n &&& 63)]

/-- `str.encode("utf-8")` as a byte list. -/
def utf8Bytes (s : String) : List Nat := s.data.flatMap utf8Char

/-- Truncation to a 32-bit word. -/
def w32 (n : Nat) : Nat := n % 4294967296

/-- 32-bit left rotation. -/
def rotl (s n : Nat) : Nat := w32 ((n <<< s) ||| (n >>> (32 - s)))

/-- SHA-1 padding: `0x80`, zeros to 56 mod 64, then the 64-bit big-endian
bit length. -/
def sha1Pad (msg : List Nat) : List Nat :=
  let len := msg.length
  let zeros := (119 - len % 64) % 64
  let bitLen := 8 * len
  msg ++ [128] ++ List.replicate zeros 0 ++
    ((List.range 8).map (fun i => bitLen >>> (8 * (7 - i)) % 256))

/-- Big-endian 32-bit word `i` of a 64-byte chunk. -/
def chunkWord (chunk : List Nat) (i : Nat) : Nat :=
  chunk.getD (4 * i) 0 <<< 24 ||| chunk.getD (4 * i + 1) 0 <<< 16 |||
  chunk.getD (4 * i + 2) 0 <<< 8 ||| chunk.getD (4 * i + 3) 0

/-- The SHA-1 message schedule `W` over one chunk. -/
def sha1W (chunk : List Nat) : Nat → Nat
  | i =>
    if _h : i < 16 then chunkWord chunk i
    else
      rotl 1 (sha1W chunk (i - 3) ^^^ sha1W chunk (i - 8) ^^^
              sha1W chunk (i - 14) ^^^ sha1W chunk (i - 16))
termination_by i => i
decreasing_by all_goals omega

/-- Round function and constant for round `t`. -/
def sha1FK (t b c d : Nat) : Nat × Nat :=
  if t < 20 then ((b &&& c) ||| ((b ^^^ 4294967295) &&& d), 1518500249)
  else if t < 40 then (b ^^^ c ^^^ d, 1859775393)
  else if t < 60 then ((b &&& c) ||| (b &&& d) ||| (c &&& d), 2400959708)
  else (b ^^^ c ^^^ d, 3395469782)

/-- One SHA-1 round at index `t`. -/
def sha1Round (W : Nat → Nat) (t : Nat) (st : Nat × Nat × Nat × Nat × Nat) :
    Nat × Nat × Nat × Nat × Nat :=
  let (a, b, c, d, e) := st
  let fk := sha1FK t b c d
  (w32 (rotl 5 a + fk.1 + e + fk.2 + W t), a, rotl 30 b, c, d)

/-- Runs rounds `80 - n, ..., 79`; called with `n = 80`. -/
def sha1Rounds (W : Nat → Nat) : Nat → Nat × Nat × Nat × Nat × Nat →
    Nat × Nat × Nat × Nat × Nat
  | 0, st => st
  | n + 1, st => sha1Rounds W n (sha1Round W (80 - (n + 1)) st)

/-- Compression of one 64-byte chunk into the running state. -/
def sha1Compress (h : Nat × Nat × Nat × Nat × Nat) (chunk : List Nat) :
    Nat × Nat × Nat × Nat × Nat :=
  let (h0, h1, h2, h3, h4) := h
  let r := sha1Rounds (sha1W chunk) 80 (h0, h1, h2, h3, h4)
  (w32 (h0 + r.1), w32 (h1 + r.2.1), w32 (h2 + r.2.2.1),
   w32 (h3 + r.2.2.2.1), w32 (h4 + r.2.2.2.2))

/-- Folds the compression over consecutive 64-byte chunks. -/
def sha1Chunks (h : Nat × Nat × Nat × Nat × Nat) :
    List Nat → Nat × Nat × Nat × Nat × Nat
  | [] => h
  | b :: rest => sha1Chunks (sha1Compress h ((b :: rest).take 64)) ((b :: rest).drop 64)
termination_by l => l.length
decreasing_by simp [List.length_drop]; omega

/-- The SHA-1 state of a byte message. -/
def sha1 (msg : List Nat) : Nat × Nat × Nat × Nat × Nat :=
  sha1Chunks (1732584193, 4023233417, 2562383102, 271733878, 3285377520)
    (sha1Pad msg)

/-- Lowercase hex digit. -/
def hexDigit (n : Nat) : Char :=
  if n < 10 then Char.ofNat (48 + n) else Char.ofNat (87 + n)

/-- Fixed-width (8 digit) big-endian hex of a 32-bit word. -/
def toHex8 (n : Nat) : List Char :=
  (List.range 8).map (fun i => hexDigit (n / 2 ^ (4 * (7 - i)) % 16))

/-- `hashlib.sha1(msg).hexdigest()`. -/
def sha1Hex (msg : List Nat) : String :=
  let h := sha1 msg
  ⟨toHex8 h.1 ++ toHex8 h.2.1 ++ toHex8 h.2.2.1 ++ toHex8 h.2.2.2.1 ++
   toHex8 h.2.2.2.2⟩

/-! ## Events and the document builder -/

/-- The fields of a parsed `ics` event that the script reads.  A `none`
models both a missing attribute and an attribute holding `None`. -/
structure IcsEvent where
  uid : Option String
  name : Option String
  description : Option String
  location : Option String
  beginT : Option IcsTimeValue
  endT : Option IcsTimeValue
  created : Option IcsTimeValue
deriving DecidableEq, Repr

/-- The synthetic identifier of line 220: SHA-1 of the UTF-8 bytes of the
cleaned title concatenated with the formatted local start (empty when the
start is absent), hex-encoded, suffixed with `@generated`. -/
def generatedUid (summary fmtStart : String) : String :=
  sha1Hex (utf8Bytes (summary ++ fmtStart)) ++ "@generated"

/-- The record lines one event contributes inside
`build_ics_text_with_vtimezone`; `now` is the UTC instant taken by
`datetime.now(timezone.utc)` for `DTSTAMP`. -/
def eventLines (now : PyDateTime) (ev : IcsEvent) : List String :=
  let uid := ev.uid.getD ""
  let summary := ev.name.getD ""
  let desc := ev.description.getD ""
  let loc := ev.location.getD ""
  let bLocal := wallclock_as_local_naive (ensure_datetime ev.beginT)
  let eLocal := wallclock_as_local_naive (ensure_datetime ev.endT)
  ["BEGIN:VEVENT"] ++
  (if uid ≠ "" then ["UID:" ++ uid] else []) ++
  ["SUMMARY:" ++ escape_ical_text summary] ++
  (if desc ≠ "" then ["DESCRIPTION:" ++ escape_ical_text desc] else []) ++
  (if loc ≠ "" then ["LOCATION:" ++ escape_ical_text loc] else []) ++
  (match bLocal with
   | some d => ["DTSTART;TZID=" ++ TZID ++ ":" ++ format_dt_as_local_string d]
   | none => []) ++
  (match eLocal with
   | some d => ["DTEND;TZID=" ++ TZID ++ ":" ++ format_dt_as_local_string d]
   | none => []) ++
  (match ensure_datetime ev.created with
   | some c => ["CREATED:" ++ formatUTCZ (createdToUTC c)]
   | none => []) ++
  ["DTSTAMP:" ++ formatUTCZ now] ++
  (if uid = "" then
    ["UID:" ++ generatedUid summary
        (match bLocal with
         | some d => format_dt_as_local_string d
         | none => "")]
   else []) ++
  ["END:VEVENT"]

/-- `build_ics_text_with_vtimezone` as its list of record lines, before
joining: header, version, product id, the stripped timezone block as one
element, the events' lines, the final container line. -/
def build_ics_lines (now : PyDateTime) (evs : List IcsEvent) : List String :=
  ["BEGIN:VCALENDAR", "VERSION:2.0", "PRODID:-//Filtered Calendar//EN",
   pyStripS VTIMEZONE_BLOCK] ++
  evs.flatMap (eventLines now) ++
  ["END:VCALENDAR"]

/-- `build_ics_text_with_vtimezone`: the lines joined with CRLF plus one
trailing CRLF. -/
def build_ics_text_with_vtimezone (now : PyDateTime) (evs : List IcsEvent) : String :=
  String.intercalate "\x0d\n" (build_ics_lines now evs) ++ "\x0d\n"

/-! ## The event filter -/

/-- The combined search text: `" ".join(filter(None, [name, description,
location]))` — absent and empty fields dropped, the rest joined by one
space. -/
def combinedText (ev : IcsEvent) : String :=
  String.intercalate " "
    (([ev.name, ev.description, ev.location].filterMap id).filter (fun s => s ≠ ""))

/-- The per-event match test of `filter_calendar_to_string_with_tz`. -/
def passesFilter (ev : IcsEvent) : Bool := matches_team (combinedText ev)

/-- `ev.name = clean_summary(getattr(ev, "name", None))` on a kept event. -/
def cleanEvent (ev : IcsEvent) : IcsEvent := { ev with name := clean_summary ev.name }

/-- The kept events, cleaned.  In the source, both `cal.events` and
`out.events` are Python sets (`out.events.add`) whose iteration order is
unspecified hash order; this model determinizes both to the given list
order.  The theorems below depend on this collection only through its
membership and count (the zero-match and single-known-event cases),
never through a claimed iteration order. -/
def filter_calendar_events (evs : List IcsEvent) : List IcsEvent :=
  (evs.filter passesFilter).map cleanEvent

/-- `filter_calendar_to_string_with_tz`: the built text and the match
count.  The builder iterates the second set (`cal_out.events`); the same
determinization note as on `filter_calendar_events` applies. -/
def filter_calendar_to_string_with_tz (now : PyDateTime) (evs : List IcsEvent) :
    String × Nat :=
  (build_ics_text_with_vtimezone now (filter_calendar_events evs),
   (filter_calendar_events evs).length)

/-! ## The atomic publisher

`atomic_replace_with_backup` works on three paths; the filesystem state
records the content at each (`none` = the file does not exist).  Each
`os.replace` / `os.remove` / full file write is one atomic mutation; the
trace lists the state after every mutation, which together with the
initial state gives every externally observable intermediate state.  A
step named by `failAt` raises before mutating, except the staging write,
which fails midway leaving `truncText` in the staging file. -/

structure FS where
  output : Option String
  backup : Option String
  staging : Option String
deriving DecidableEq, Repr

/-- The five operations of the protocol that can raise. -/
inductive PStep where
  | bakRemove
  | bakRename
  | stageWrite
  | commitRename
  | bakCleanup
deriving DecidableEq, Repr

/-- The `except` block: delete staging if present; if a backup is present,
delete any output and rename the backup over the output path. -/
def rollbackFS (fs : FS) : FS × List FS :=
  let s1 := if fs.staging.isSome then
      ({ fs with staging := none }, [{ fs with staging := none }])
    else (fs, [])
  match s1.1.backup with
  | none => s1
  | some b =>
    let t2 := if s1.1.output.isSome then
        ({ s1.1 with output := none }, s1.2 ++ [{ s1.1 with output := none }])
      else s1
    let fin : FS := { t2.1 with output := some b, backup := none }
    (fin, t2.2 ++ [fin])

/-- The `try` body: backup the current output, write staging, rename it
over the output, remove the backup.  Returns whether the body completed,
the state reached, and the trace of intermediate states. -/
def attemptReplace (fs : FS) (newText truncText : String) (failAt : Option PStep) :
    Bool × FS × List FS :=
  let afterBak : Bool × FS × List FS :=
    if fs.output.isSome then
      if fs.backup.isSome then
        if failAt = some .bakRemove then (false, fs, [])
        else
          let f1 : FS := { fs with backup := none }
          if failAt = some .bakRename then (false, f1, [f1])
          else
            let f2 : FS := { f1 with output := none, backup := fs.output }
            (true, f2, [f1, f2])
      else
        if failAt = some .bakRename then (false, fs, [])
        else
          let f2 : FS := { fs with output := none, backup := fs.output }
          (true, f2, [f2])
    else (true, fs, [])
  match afterBak with
  | (false, f, t) => (false, f, t)
  | (true, f, t) =>
    if failAt = some .stageWrite then
      let fw : FS := { f with staging := some truncText }
      (false, fw, t ++ [fw])
    else
      let fw : FS := { f with staging := some newText }
      if failAt = some .commitRename then (false, fw, t ++ [fw])
      else
        let fc : FS := { fw with output := some newText, staging := none }
        if fc.backup.isSome then
          if failAt = some .bakCleanup then (false, fc, t ++ [fw, fc])
          else
            let fd : FS := { fc with backup := none }
            (true, fd, t ++ [fw, fc, fd])
        else (true, fc, t ++ [fw, fc])

/-- `atomic_replace_with_backup`: the body, then the rollback on failure.
Returns the reported success, the final state, and the full trace. -/
def atomic_replace_with_backup (fs : FS) (newText truncText : String)
    (failAt : Option PStep) : Bool × FS × List FS :=
  match attemptReplace fs newText truncText failAt with
  | (true, f, t) => (true, f, t)
  | (false, f, t) =>
    let r := rollbackFS f
    (false, r.1, t ++ r.2)

/-! ## One run of `main` -/

/-- A successful (`200`) response: body and the validator headers actually
present. -/
structure FetchOk where
  body : String
  etag : Option String
  lastMod : Option String

/-- What the conditional request can produce: `304`, success, or a raised
error (non-success status or timeout). -/
inductive CondFetch where
  | notModified
  | ok (r : FetchOk)
  | err

/-- The caching tokens `save_meta` would be handed, as written by lines
93–97 and 289–293. -/
def metaOf (r : FetchOk) : List (String × String) :=
  (match r.etag with | some e => [("ETag", e)] | none => []) ++
  (match r.lastMod with | some l => [("Last-Modified", l)] | none => [])

/-- The externally supplied behaviour of one run: responses of the two
possible fetches, the parser (`none` models a raising `Calendar(...)`),
the initial three-path filesystem, the injected publish failure, and the
build-time UTC instant. -/
structure Env where
  cond : CondFetch
  uncond : Option FetchOk
  parse : String → Option (List IcsEvent)
  priorOut : Option String
  priorBak : Option String
  priorStaging : Option String
  publishFail : Option PStep
  truncText : String
  now : PyDateTime

/-- Everything observable about a finished run. -/
structure RunOutcome where
  usedUncond : Bool
  publishAttempted : Bool
  publishedOk : Bool
  metaSaved : Option (List (String × String))
  out : Option String
  exit : Nat

/-- The `except` clause of `main`: if a backup exists and the output is
missing, the backup is renamed to the output path. -/
def fatalOut (env : Env) : Option String :=
  if env.priorOut.isNone then
    match env.priorBak with
    | some b => some b
    | none => none
  else env.priorOut

/-- The filter/build/publish/save tail of `main`, shared by the
conditional and unconditional fetch paths. -/
def processBody (env : Env) (usedUncond : Bool) (body : String)
    (newMeta : List (String × String)) : RunOutcome :=
  match env.parse body with
  | none =>
    { usedUncond := usedUncond, publishAttempted := false, publishedOk := false,
      metaSaved := none, out := fatalOut env, exit := 2 }
  | some evs =>
    let newText := (filter_calendar_to_string_with_tz env.now evs).1
    let fs0 : FS := ⟨env.priorOut, env.priorBak, env.priorStaging⟩
    let res := atomic_replace_with_backup fs0 newText env.truncText env.publishFail
    if res.1 then
      { usedUncond := usedUncond, publishAttempted := true, publishedOk := true,
        metaSaved := some newMeta, out := res.2.1.output, exit := 0 }
    else
      { usedUncond := usedUncond, publishAttempted := true, publishedOk := false,
        metaSaved := none, out := res.2.1.output, exit := 2 }

/-- One run of `main`. -/
def mainRun (env : Env) : RunOutcome :=
  match env.cond with
  | .err =>
    { usedUncond := false, publishAttempted := false, publishedOk := false,
      metaSaved := none, out := fatalOut env, exit := 2 }
  | .notModified =>
    if env.priorOut.isNone then
      match env.uncond with
      | none =>
        { usedUncond := true, publishAttempted := false, publishedOk := false,
          metaSaved := none, out := fatalOut env, exit := 2 }
      | some r => processBody env true r.body (metaOf r)
    else
      { usedUncond := false, publishAttempted := false, publishedOk := false,
        metaSaved := none, out := env.priorOut, exit := 0 }
  | .ok r => processBody env false r.body (metaOf r)

/-! ## Line-terminator predicates (for the CRLF discipline claim) -/

/-- Scans the tail: no `\n` may appear unless the preceding character was
`\x0d` (CR). -/
def scanPairs (prev : Char) : List Char → Bool
  | [] => true
  | c :: t => (c != '\n' || prev == '\x0d') && scanPairs c t

/-- Every LF in the text is the second half of a CRLF pair. -/
def noBareLF : List Char → Bool
  | [] => true
  | c :: t => (c != '\n') && scanPairs c t

/-- The text ends with exactly one CRLF: its final two characters are CRLF
and they are not preceded by another CRLF. -/
def endsOneCRLF (l : List Char) : Bool :=
  match l.reverse with
  | '\n' :: '\x0d' :: rest =>
    match rest with
    | '\n' :: '\x0d' :: _ => false
    | _ => true
  | _ => false

end BBLB

namespace BBLB

/-! ## Helper lemmas: escaping -/

/-- Replacement distributes over appending. -/
lemma replaceChar_append (p : Char) (r : List Char) (a b : List Char) :
    replaceChar p r (a ++ b) = replaceChar p r a ++ replaceChar p r b := by
  simp [replaceChar]

lemma escape_data (s : String) :
    (escape_ical_text s).data =
      replaceChar ';' ['\\', ';']
        (replaceChar ',' ['\\', ',']
          (replaceChar '\n' ['\\', 'n']
            (replaceChar '\\' ['\\', '\\'] s.data))) := rfl

/-- The whole escaping pipeline on a list, as used in proofs. -/
def escSeq (l : List Char) : List Char :=
  replaceChar ';' ['\\', ';']
    (replaceChar ',' ['\\', ',']
      (replaceChar '\n' ['\\', 'n']
        (replaceChar '\\' ['\\', '\\'] l)))

lemma escSeq_append (a b : List Char) : escSeq (a ++ b) = escSeq a ++ escSeq b := by
  simp [escSeq, replaceChar_append]

lemma escSeq_backslash : escSeq ['\\'] = ['\\', '\\'] := rfl

lemma escSeq_newline : escSeq ['\n'] = ['\\', 'n'] := rfl

lemma escSeq_comma : escSeq [','] = ['\\', ','] := rfl

lemma escSeq_semi : escSeq [';'] = ['\\', ';'] := rfl

lemma escSeq_other (c : Char) (h1 : c ≠ '\\') (h2 : c ≠ '\n') (h3 : c ≠ ',')
    (h4 : c ≠ ';') : escSeq [c] = [c] := by
  simp [escSeq, replaceChar, h1, h2, h3, h4]

lemma unescape_cons_ne (c : Char) (l : List Char) (hc : c ≠ '\\') :
    unescape_ical_list (c :: l) = c :: unescape_ical_list l := by
  cases l <;> simp [unescape_ical_list, hc]

lemma unescape_bs (c : Char) (l : List Char) :
    unescape_ical_list ('\\' :: c :: l) =
      (if c = 'n' then '\n' else c) :: unescape_ical_list l := by
  simp [unescape_ical_list]

/-- Round trip on lists: unescaping an escaped text restores it. -/
lemma unescape_escSeq (l : List Char) : unescape_ical_list (escSeq l) = l := by
  induction l with
  | nil => rfl
  | cons c t ih =>
    have hsplit : escSeq (c :: t) = escSeq [c] ++ escSeq t := by
      simpa using escSeq_append [c] t
    by_cases h1 : c = '\\'
    · subst h1
      rw [hsplit, escSeq_backslash]
      simp [unescape_bs, ih]
    · by_cases h2 : c = '\n'
      · subst h2
        rw [hsplit, escSeq_newline]
        simp [unescape_bs, ih]
      · by_cases h3 : c = ','
        · subst h3
          rw [hsplit, escSeq_comma]
          simp [unescape_bs, ih]
        · by_cases h4 : c = ';'
          · subst h4
            rw [hsplit, escSeq_semi]
            simp [unescape_bs, ih]
          · rw [hsplit, escSeq_other c h1 h2 h3 h4]
            simp [unescape_cons_ne c _ h1, ih]

/-! ## Claim C6 -/

/-- C6: the text escaper replaces backslash, newline, comma and semicolon
by their escapes in that order; unescaping by the inverse substitution
restores every input exactly, so the escaping is injective.  A sample
containing all four characters is evaluated. -/
theorem claim_C6 :
    (∀ s, unescape_ical_text (escape_ical_text s) = s) ∧
    (∀ a b, escape_ical_text a = escape_ical_text b → a = b) ∧
    escape_ical_text "K\\o,m;m\nt" = "K\\\\o\\,m\\;m\\nt" := by
  have hrt : ∀ s, unescape_ical_text (escape_ical_text s) = s := by
    intro s
    have : (unescape_ical_text (escape_ical_text s)).data = s.data := by
      show unescape_ical_list (escSeq s.data) = s.data
      exact unescape_escSeq s.data
    cases s
    exact congrArg String.mk this
  refine ⟨hrt, ?_, by decide⟩
  intro a b h
  have := congrArg unescape_ical_text h
  rwa [hrt, hrt] at this

/-- C6 witness: the injectivity hypothesis discharged at a concrete pair. -/
theorem claim_C6_witness :
    unescape_ical_text (escape_ical_text "a,b;c") = "a,b;c" ∧ "a;b" = "a;b" :=
  ⟨claim_C6.1 "a,b;c", claim_C6.2.1 "a;b" "a;b" rfl⟩

/-! ## Claim C5 -/

/-- Whether the (raw) title case-insensitively starts with a configured
league tag, exactly as the claim words it. -/
def startsWithAnyTag (s : String) : Bool :=
  REMOVE_PREFIXES.any (fun p => (pyLower p.data).isPrefixOf (pyLower s.data))

/-- C5 counterexample: `" X "` matches no configured tag, yet
`clean_summary` does not return it unchanged — it strips the surrounding
whitespace first. -/
theorem claim_C5_counterexample :
    startsWithAnyTag " X " = false ∧
    clean_summary (some " X ") ≠ some " X " ∧
    clean_summary (some " X ") = some "X" := by
  refine ⟨rfl, ?_, rfl⟩
  decide

/-- C5 amended: the title is first trimmed of surrounding whitespace; at
most one configured tag is removed from the front of the trimmed title
(first match wins, any whitespace after it also removed); a trimmed title
matching no tag is returned trimmed but otherwise unchanged; absent and
empty titles are returned as-is.  The league-tag example cleans as the
spec demands. -/
theorem claim_C5 (s : String) (hne : s ≠ "") :
    clean_summary none = none ∧
    clean_summary (some "") = some "" ∧
    (startsWithAnyTag (pyStripS s) = false → clean_summary (some s) = some (pyStripS s)) ∧
    (startsWithAnyTag (pyStripS s) = true →
      clean_summary (some s) =
        some ⟨lstripWS ((stripWS s.data).drop "easyCredit BBL Spiel ".data.length)⟩) ∧
    clean_summary (some "easyCredit BBL Spiel Löwen Braunschweig vs. X") =
      some "Löwen Braunschweig vs. X" := by
  have hdata : s.data ≠ [] := by
    intro h
    exact hne (by cases s; simp_all)
  refine ⟨rfl, rfl, ?_, ?_, by decide⟩
  · intro hno
    simp only [startsWithAnyTag, REMOVE_PREFIXES, List.any_cons, List.any_nil,
      Bool.or_false, pyStripS] at hno
    simp [clean_summary, hdata, stripOneTag, REMOVE_PREFIXES, hno, pyStripS]
  · intro hyes
    simp only [startsWithAnyTag, REMOVE_PREFIXES, List.any_cons, List.any_nil,
      Bool.or_false, pyStripS] at hyes
    simp [clean_summary, hdata, stripOneTag, REMOVE_PREFIXES, hyes]

/-- C5 witness: the amended theorem applied to the spec's own example
title. -/
theorem claim_C5_witness :
    clean_summary (some "easyCredit BBL Spiel Löwen Braunschweig vs. X") =
      some "Löwen Braunschweig vs. X" :=
  (claim_C5 "easyCredit BBL Spiel Löwen Braunschweig vs. X" (by decide)).2.2.2.2

/-! ## Claim C7 -/

/-- C7: the claim that every record line of a built document is
CRLF-terminated fails on the code.  The `VTIMEZONE` template is inserted
as a single element whose internal line breaks are bare `\n`, so even the
empty calendar contains LFs not preceded by CR; the second half of the
claim — exactly one trailing CRLF — does hold of the built text. -/
theorem claim_C7_bug :
    noBareLF (build_ics_text_with_vtimezone ⟨2024, 1, 1, 0, 0, 0, 0, some 0⟩ []).data
      = false ∧
    endsOneCRLF (build_ics_text_with_vtimezone ⟨2024, 1, 1, 0, 0, 0, 0, some 0⟩ []).data
      = true := by
  constructor
  · decide
  · decide

/-! ## Claim C2 -/

/-- C2 counterexample: with a clean starting state holding a previous
document, a failure during the staging write produces observable states —
already right after the backup rename — in which the output path names
neither the previous nor the new document (it is absent), so the claim's
invariant as stated is false. -/
theorem claim_C2_counterexample :
    ¬ (∀ fs' ∈ (atomic_replace_with_backup ⟨some "old", none, none⟩ "new" "trunc"
          (some PStep.stageWrite)).2.2,
        fs'.output = some "old" ∨ fs'.output = some "new") := by
  decide

/-- C2 amended, over every initial state (the output path, a possibly
stale backup and a possibly stale staging file left by an earlier failed
run are all arbitrary): on failure at any step the staging file is
deleted, any backup present at the failure is forcibly restored to the
output path (deleting the current output first) and failure is reported,
so the run ends with no staging and no backup file and the output path
holding either the pre-call output or the pre-call backup content; at
every observable point the output path is absent, the pre-call output,
the pre-call backup content (possible only when a stale backup
pre-existed), or the new complete document — never the partially written
staging content; a run with no failing step commits the new document and
cleans both siblings. -/
theorem claim_C2 (fs : FS) (newText truncText : String) (failAt : Option PStep) :
    (∀ fs' ∈ fs :: (atomic_replace_with_backup fs newText truncText failAt).2.2,
        fs'.output = none ∨ fs'.output = fs.output ∨ fs'.output = fs.backup ∨
          fs'.output = some newText) ∧
    ((atomic_replace_with_backup fs newText truncText failAt).1 = false →
      (atomic_replace_with_backup fs newText truncText failAt).2.1.staging = none ∧
      (atomic_replace_with_backup fs newText truncText failAt).2.1.backup = none ∧
      ((atomic_replace_with_backup fs newText truncText failAt).2.1.output = fs.output ∨
       (atomic_replace_with_backup fs newText truncText failAt).2.1.output = fs.backup)) ∧
    ((atomic_replace_with_backup fs newText truncText failAt).1 = true →
      (atomic_replace_with_backup fs newText truncText failAt).2.1 =
        ⟨some newText, none, none⟩) ∧
    (failAt = none → (atomic_replace_with_backup fs newText truncText failAt).1 = true) := by
  obtain ⟨o, b, st⟩ := fs
  cases o <;> cases b <;> cases st <;> rcases failAt with _ | step <;> try cases step
  all_goals simp [atomic_replace_with_backup, attemptReplace, rollbackFS]

/-- C2 witness: the protocol contract at a concrete state carrying a
stale backup, failing at the stale-backup removal — the rollback restores
the stale backup over the previous output. -/
theorem claim_C2_witness :
    (∀ fs' ∈ (⟨some "old", some "stale", none⟩ : FS) ::
        (atomic_replace_with_backup ⟨some "old", some "stale", none⟩ "new" "t"
          (some PStep.bakRemove)).2.2,
        fs'.output = none ∨
          fs'.output = (⟨some "old", some "stale", none⟩ : FS).output ∨
          fs'.output = (⟨some "old", some "stale", none⟩ : FS).backup ∨
          fs'.output = some "new") ∧
    ((atomic_replace_with_backup (⟨some "old", some "stale", none⟩ : FS) "new" "t"
        (some PStep.bakRemove)).1 = false →
      (atomic_replace_with_backup (⟨some "old", some "stale", none⟩ : FS) "new" "t"
        (some PStep.bakRemove)).2.1.staging = none ∧
      (atomic_replace_with_backup (⟨some "old", some "stale", none⟩ : FS) "new" "t"
        (some PStep.bakRemove)).2.1.backup = none ∧
      ((atomic_replace_with_backup (⟨some "old", some "stale", none⟩ : FS) "new" "t"
          (some PStep.bakRemove)).2.1.output =
            (⟨some "old", some "stale", none⟩ : FS).output ∨
       (atomic_replace_with_backup (⟨some "old", some "stale", none⟩ : FS) "new" "t"
          (some PStep.bakRemove)).2.1.output =
            (⟨some "old", some "stale", none⟩ : FS).backup)) ∧
    ((atomic_replace_with_backup (⟨some "old", some "stale", none⟩ : FS) "new" "t"
        (some PStep.bakRemove)).1 = true →
      (atomic_replace_with_backup (⟨some "old", some "stale", none⟩ : FS) "new" "t"
        (some PStep.bakRemove)).2.1 = ⟨some "new", none, none⟩) ∧
    (some PStep.bakRemove = none →
      (atomic_replace_with_backup (⟨some "old", some "stale", none⟩ : FS) "new" "t"
        (some PStep.bakRemove)).1 = true) :=
  claim_C2 ⟨some "old", some "stale", none⟩ "new" "t" (some PStep.bakRemove)

/-! ## Helper lemmas: runs of `main` -/

/-- A publish run with no failing step reports success and leaves the new
text at the output path. -/
lemma atomic_replace_no_fail (fs : FS) (newText truncText : String) :
    (atomic_replace_with_backup fs newText truncText none).1 = true ∧
    (atomic_replace_with_backup fs newText truncText none).2.1.output = some newText := by
  obtain ⟨o, b, st⟩ := fs
  cases o <;> cases b <;> simp [atomic_replace_with_backup, attemptReplace]

/-- The built text always ends in CRLF, hence is never empty. -/
lemma build_text_ne_empty (now : PyDateTime) (evs : List IcsEvent) :
    build_ics_text_with_vtimezone now evs ≠ "" := by
  intro h
  have hlen := congrArg String.length h
  rw [build_ics_text_with_vtimezone, String.length_append] at hlen
  rw [show ("\x0d\n" : String).length = 2 from rfl] at hlen
  rw [show ("" : String).length = 0 from rfl] at hlen
  omega

/-- Metadata saving inside the shared filter/build/publish tail happens
exactly on a fully successful publish. -/
lemma processBody_save_iff (env : Env) (u : Bool) (body : String)
    (m : List (String × String)) :
    (processBody env u body m).metaSaved.isSome = true ↔
      (processBody env u body m).publishAttempted = true ∧
      (processBody env u body m).publishedOk = true := by
  unfold processBody
  rcases hp : env.parse body with _ | evs
  · simp
  · cases hok : (atomic_replace_with_backup ⟨env.priorOut, env.priorBak, env.priorStaging⟩
        (filter_calendar_to_string_with_tz env.now evs).1 env.truncText
        env.publishFail).1 <;>
      simp [hok]

/-! ## Claim C8 -/

/-- C8: in every run, the metadata store's save is invoked exactly when
the publish step completed fully successfully; failed publishes, fetch or
parse errors, and the 304-with-existing-output exit all leave the
persisted tokens untouched. -/
theorem claim_C8 (env : Env) :
    (mainRun env).metaSaved.isSome = true ↔
      (mainRun env).publishAttempted = true ∧ (mainRun env).publishedOk = true := by
  rcases hc : env.cond with _ | r | _
  · by_cases ho : env.priorOut.isNone
    · rcases hu : env.uncond with _ | r'
      · simp [mainRun, hc, ho, hu]
      · simpa [mainRun, hc, ho, hu] using processBody_save_iff env true r'.body (metaOf r')
    · simp [mainRun, hc, ho]
  · simpa [mainRun, hc] using processBody_save_iff env false r.body (metaOf r)
  · simp [mainRun, hc]

/-- C8 witness environment: a parse-failing run, which must not save
metadata. -/
def envC8 : Env :=
  { cond := CondFetch.ok { body := "broken", etag := none, lastMod := none },
    uncond := none, parse := fun _ => none, priorOut := some "OLD",
    priorBak := none, priorStaging := none, publishFail := none,
    truncText := "t", now := ⟨2025, 1, 1, 0, 0, 0, 0, some 0⟩ }

/-- C8 witness: the save-iff-published equivalence at a concrete run. -/
theorem claim_C8_witness :
    (mainRun envC8).metaSaved.isSome = true ↔
      (mainRun envC8).publishAttempted = true ∧ (mainRun envC8).publishedOk = true :=
  claim_C8 envC8

/-! ## Claim C4 -/

/-- C4: when the conditional fetch reports 304 while no output artifact
exists, the run issues the unconditional fetch and (when parsing and
publishing succeed) ends successfully with the output path holding the
freshly built, non-empty document. -/
theorem claim_C4 (env : Env) (r : FetchOk) (evs : List IcsEvent)
    (h1 : env.cond = CondFetch.notModified)
    (h2 : env.priorOut = none)
    (h3 : env.uncond = some r)
    (h4 : env.parse r.body = some evs)
    (h5 : env.publishFail = none) :
    (mainRun env).usedUncond = true ∧
    (mainRun env).out = some (filter_calendar_to_string_with_tz env.now evs).1 ∧
    (filter_calendar_to_string_with_tz env.now evs).1 ≠ "" ∧
    (mainRun env).exit = 0 := by
  have hrep := atomic_replace_no_fail ⟨env.priorOut, env.priorBak, env.priorStaging⟩
    (filter_calendar_to_string_with_tz env.now evs).1 env.truncText
  rw [← h5] at hrep
  rw [h2] at hrep
  have hne : (filter_calendar_to_string_with_tz env.now evs).1 ≠ "" :=
    build_text_ne_empty env.now (filter_calendar_events evs)
  simp [mainRun, h1, h2, h3, processBody, h4, hrep.1, hrep.2, hne]

/-- C4 witness environment: a 304 answer, no artifact on disk, and an
unconditional fetch whose body parses to an empty event list. -/
def envC4 : Env :=
  { cond := CondFetch.notModified,
    uncond := some { body := "BODY", etag := some "E1", lastMod := none },
    parse := fun _ => some [], priorOut := none, priorBak := none,
    priorStaging := none, publishFail := none, truncText := "t",
    now := ⟨2025, 1, 2, 3, 4, 5, 0, some 0⟩ }

/-- C4 witness: the bootstrap override contract at the concrete
environment. -/
theorem claim_C4_witness :
    (mainRun envC4).usedUncond = true ∧
    (mainRun envC4).out = some (filter_calendar_to_string_with_tz envC4.now []).1 ∧
    (filter_calendar_to_string_with_tz envC4.now []).1 ≠ "" ∧
    (mainRun envC4).exit = 0 :=
  claim_C4 envC4 { body := "BODY", etag := some "E1", lastMod := none } [] rfl rfl rfl
    rfl rfl

/-! ## Claim C10 -/

/-- C10: a successful fetch whose parsed events all fail the team match
still builds a document with the container header and timezone block but
zero event records, publishes it over whatever output existed before, and
exits successfully, saving the new tokens. -/
theorem claim_C10 (env : Env) (r : FetchOk) (evs : List IcsEvent)
    (h1 : env.cond = CondFetch.ok r)
    (h2 : env.parse r.body = some evs)
    (h3 : ∀ e ∈ evs, passesFilter e = false)
    (h4 : env.publishFail = none) :
    (mainRun env).out = some (build_ics_text_with_vtimezone env.now []) ∧
    (mainRun env).exit = 0 ∧
    (mainRun env).metaSaved = some (metaOf r) ∧
    build_ics_lines env.now [] =
      ["BEGIN:VCALENDAR", "VERSION:2.0", "PRODID:-//Filtered Calendar//EN",
       pyStripS VTIMEZONE_BLOCK, "END:VCALENDAR"] ∧
    (build_ics_lines env.now []).countP (fun l => l == "BEGIN:VEVENT") = 0 := by
  have hnil : evs.filter passesFilter = [] := by
    rw [List.filter_eq_nil_iff]
    intro a ha
    simp [h3 a ha]
  have hfil : filter_calendar_events evs = [] := by
    simp [filter_calendar_events, hnil]
  have hrep := atomic_replace_no_fail ⟨env.priorOut, env.priorBak, env.priorStaging⟩
    (filter_calendar_to_string_with_tz env.now evs).1 env.truncText
  rw [← h4] at hrep
  have htext : (filter_calendar_to_string_with_tz env.now evs).1 =
      build_ics_text_with_vtimezone env.now [] := by
    simp [filter_calendar_to_string_with_tz, hfil]
  rw [htext] at hrep
  have hlines : build_ics_lines env.now [] =
      ["BEGIN:VCALENDAR", "VERSION:2.0", "PRODID:-//Filtered Calendar//EN",
       pyStripS VTIMEZONE_BLOCK, "END:VCALENDAR"] := rfl
  refine ⟨?_, ?_, ?_, hlines, ?_⟩
  · simp [mainRun, h1, processBody, h2, filter_calendar_to_string_with_tz, hfil,
      hrep.1, hrep.2]
  · simp [mainRun, h1, processBody, h2, filter_calendar_to_string_with_tz, hfil,
      hrep.1]
  · simp [mainRun, h1, processBody, h2, filter_calendar_to_string_with_tz, hfil,
      hrep.1]
  · rw [hlines]
    decide

/-- C10 witness fetch result: a 200 answer carrying a validator token. -/
def fetchC10 : FetchOk := { body := "B", etag := none, lastMod := some "L" }

/-- C10 witness event: mentions no configured team variant. -/
def evC10 : IcsEvent :=
  { uid := some "u1", name := some "Berlin vs Bonn", description := none,
    location := none, beginT := none, endT := none, created := none }

/-- C10 witness environment: the zero-match fetch over an existing
non-empty output file. -/
def envC10 : Env :=
  { cond := CondFetch.ok fetchC10, uncond := none,
    parse := fun _ => some [evC10],
    priorOut := some "OLD NONEMPTY DOC", priorBak := none, priorStaging := none,
    publishFail := none, truncText := "t", now := ⟨2025, 6, 7, 8, 9, 10, 0, some 0⟩ }

/-- C10 witness: the zero-match run at the concrete environment replaces
the old document with the empty calendar. -/
theorem claim_C10_witness :
    (mainRun envC10).out = some (build_ics_text_with_vtimezone envC10.now []) ∧
    (mainRun envC10).exit = 0 ∧
    (mainRun envC10).metaSaved = some (metaOf fetchC10) ∧
    build_ics_lines envC10.now [] =
      ["BEGIN:VCALENDAR", "VERSION:2.0", "PRODID:-//Filtered Calendar//EN",
       pyStripS VTIMEZONE_BLOCK, "END:VCALENDAR"] ∧
    (build_ics_lines envC10.now []).countP (fun l => l == "BEGIN:VEVENT") = 0 :=
  claim_C10 envC10 fetchC10 [evC10] rfl rfl (by decide) rfl

/-! ## Record-line classifiers

Every record line a built document can contain starts with one of a fixed
set of property heads, so a line's kind is decided by its leading
characters, whatever the (abstract) field text after the head. -/

/-- Lines carrying a `DTSTART` with a timezone parameter. -/
def isDTSTARTLine (s : String) : Bool :=
  (['D', 'T', 'S', 'T', 'A', 'R', 'T', ';'] : List Char).isPrefixOf s.data

/-- Lines carrying the event title. -/
def isSUMMARYLine (s : String) : Bool :=
  (['S', 'U', 'M', 'M', 'A', 'R', 'Y', ':'] : List Char).isPrefixOf s.data

/-- Lines carrying an event identifier. -/
def isUIDLine (s : String) : Bool :=
  (['U', 'I', 'D', ':'] : List Char).isPrefixOf s.data

lemma sumL_begin : isSUMMARYLine "BEGIN:VEVENT" = false := rfl

lemma sumL_endev : isSUMMARYLine "END:VEVENT" = false := rfl

lemma sumL_uid (t : String) : isSUMMARYLine ("UID:" ++ t) = false := rfl

lemma sumL_self (t : String) : isSUMMARYLine ("SUMMARY:" ++ t) = true := by
  rw [isSUMMARYLine, show ("SUMMARY:" ++ t).data =
    'S' :: 'U' :: 'M' :: 'M' :: 'A' :: 'R' :: 'Y' :: ':' :: t.data from rfl]
  simp [List.isPrefixOf]

lemma sumL_desc (t : String) : isSUMMARYLine ("DESCRIPTION:" ++ t) = false := rfl

lemma sumL_loc (t : String) : isSUMMARYLine ("LOCATION:" ++ t) = false := rfl

lemma sumL_dtstart (t : String) :
    isSUMMARYLine ("DTSTART;TZID=" ++ TZID ++ ":" ++ t) = false := rfl

lemma sumL_dtend (t : String) :
    isSUMMARYLine ("DTEND;TZID=" ++ TZID ++ ":" ++ t) = false := rfl

lemma sumL_created (t : String) : isSUMMARYLine ("CREATED:" ++ t) = false := rfl

lemma sumL_dtstamp (t : String) : isSUMMARYLine ("DTSTAMP:" ++ t) = false := rfl

lemma uidL_begin : isUIDLine "BEGIN:VEVENT" = false := rfl

lemma uidL_endev : isUIDLine "END:VEVENT" = false := rfl

lemma uidL_self (t : String) : isUIDLine ("UID:" ++ t) = true := by
  rw [isUIDLine, show ("UID:" ++ t).data =
    'U' :: 'I' :: 'D' :: ':' :: t.data from rfl]
  simp [List.isPrefixOf]

lemma uidL_summary (t : String) : isUIDLine ("SUMMARY:" ++ t) = false := rfl

lemma uidL_desc (t : String) : isUIDLine ("DESCRIPTION:" ++ t) = false := rfl

lemma uidL_loc (t : String) : isUIDLine ("LOCATION:" ++ t) = false := rfl

lemma uidL_dtstart (t : String) :
    isUIDLine ("DTSTART;TZID=" ++ TZID ++ ":" ++ t) = false := rfl

lemma uidL_dtend (t : String) :
    isUIDLine ("DTEND;TZID=" ++ TZID ++ ":" ++ t) = false := rfl

lemma uidL_created (t : String) : isUIDLine ("CREATED:" ++ t) = false := rfl

lemma uidL_dtstamp (t : String) : isUIDLine ("DTSTAMP:" ++ t) = false := rfl

lemma dtsL_begin : isDTSTARTLine "BEGIN:VEVENT" = false := rfl

lemma dtsL_endev : isDTSTARTLine "END:VEVENT" = false := rfl

lemma dtsL_uid (t : String) : isDTSTARTLine ("UID:" ++ t) = false := rfl

lemma dtsL_summary (t : String) : isDTSTARTLine ("SUMMARY:" ++ t) = false := rfl

lemma dtsL_desc (t : String) : isDTSTARTLine ("DESCRIPTION:" ++ t) = false := rfl

lemma dtsL_loc (t : String) : isDTSTARTLine ("LOCATION:" ++ t) = false := rfl

lemma dtsL_self (t : String) :
    isDTSTARTLine ("DTSTART;TZID=" ++ TZID ++ ":" ++ t) = true := by
  rw [isDTSTARTLine, show ("DTSTART;TZID=" ++ TZID ++ ":" ++ t).data =
    'D' :: 'T' :: 'S' :: 'T' :: 'A' :: 'R' :: 'T' :: ';' ::
      ("TZID=Europe/Berlin:" ++ t).data from rfl]
  simp [List.isPrefixOf]

lemma dtsL_dtend (t : String) :
    isDTSTARTLine ("DTEND;TZID=" ++ TZID ++ ":" ++ t) = false := rfl

lemma dtsL_created (t : String) : isDTSTARTLine ("CREATED:" ++ t) = false := rfl

lemma dtsL_dtstamp (t : String) : isDTSTARTLine ("DTSTAMP:" ++ t) = false := rfl

lemma begL_begin : ("BEGIN:VEVENT" == "BEGIN:VEVENT") = true := rfl

lemma begL_endev : ("END:VEVENT" == "BEGIN:VEVENT") = false := rfl

lemma begL_uid (t : String) : ("UID:" ++ t == "BEGIN:VEVENT") = false := rfl

lemma begL_summary (t : String) : ("SUMMARY:" ++ t == "BEGIN:VEVENT") = false := rfl

lemma begL_desc (t : String) :
    ("DESCRIPTION:" ++ t == "BEGIN:VEVENT") = false := rfl

lemma begL_loc (t : String) : ("LOCATION:" ++ t == "BEGIN:VEVENT") = false := rfl

lemma begL_dtstart (t : String) :
    ("DTSTART;TZID=" ++ TZID ++ ":" ++ t == "BEGIN:VEVENT") = false := rfl

lemma begL_dtend (t : String) :
    ("DTEND;TZID=" ++ TZID ++ ":" ++ t == "BEGIN:VEVENT") = false := rfl

lemma begL_created (t : String) : ("CREATED:" ++ t == "BEGIN:VEVENT") = false := rfl

lemma begL_dtstamp (t : String) : ("DTSTAMP:" ++ t == "BEGIN:VEVENT") = false := rfl

/-- Filtering commutes with a branch on a decidable condition. -/
lemma filter_ite {α : Type} (p : α → Bool) (c : Prop) [Decidable c]
    (x y : List α) :
    List.filter p (if c then x else y) = if c then x.filter p else y.filter p := by
  split <;> rfl

/-! ## Per-event record facts -/

/-- Every event record contains exactly one title line, carrying the
escaped (possibly empty) title. -/
lemma eventLines_filter_summary (now : PyDateTime) (ev : IcsEvent) :
    (eventLines now ev).filter isSUMMARYLine =
      ["SUMMARY:" ++ escape_ical_text (ev.name.getD "")] := by
  rcases hB : wallclock_as_local_naive (ensure_datetime ev.beginT) with _ | bd <;>
  rcases hE : wallclock_as_local_naive (ensure_datetime ev.endT) with _ | ed <;>
  rcases hC : ensure_datetime ev.created with _ | cd <;>
  simp [eventLines, hB, hE, hC, filter_ite, List.filter_append,
    sumL_begin, sumL_endev, sumL_uid, sumL_self, sumL_desc, sumL_loc,
    sumL_dtstart, sumL_dtend, sumL_created, sumL_dtstamp]

/-- Every event record contains exactly one `BEGIN:VEVENT` marker. -/
lemma eventLines_filter_begin (now : PyDateTime) (ev : IcsEvent) :
    (eventLines now ev).filter (fun l => l == "BEGIN:VEVENT") = ["BEGIN:VEVENT"] := by
  rcases hB : wallclock_as_local_naive (ensure_datetime ev.beginT) with _ | bd <;>
  rcases hE : wallclock_as_local_naive (ensure_datetime ev.endT) with _ | ed <;>
  rcases hC : ensure_datetime ev.created with _ | cd <;>
  simp [eventLines, hB, hE, hC, filter_ite, List.filter_append,
    begL_begin, begL_endev, begL_uid, begL_summary, begL_desc, begL_loc,
    begL_dtstart, begL_dtend, begL_created, begL_dtstamp]

/-- When the normalized start exists, the record carries exactly one
`DTSTART` line: the fixed `TZID` and the formatted local wall clock. -/
lemma eventLines_filter_dtstart (now : PyDateTime) (ev : IcsEvent)
    (bd : PyDateTime)
    (hB : wallclock_as_local_naive (ensure_datetime ev.beginT) = some bd) :
    (eventLines now ev).filter isDTSTARTLine =
      ["DTSTART;TZID=" ++ TZID ++ ":" ++ format_dt_as_local_string bd] := by
  rcases hE : wallclock_as_local_naive (ensure_datetime ev.endT) with _ | ed <;>
  rcases hC : ensure_datetime ev.created with _ | cd <;>
  simp [eventLines, hB, hE, hC, filter_ite, List.filter_append,
    dtsL_begin, dtsL_endev, dtsL_uid, dtsL_summary, dtsL_desc, dtsL_loc,
    dtsL_self, dtsL_dtend, dtsL_created, dtsL_dtstamp]

/-- An event without a native identifier gets exactly one `UID` line: the
deterministic hash of the title and the formatted local start, suffixed
with the synthetic domain tag.  The build-time instant `now` plays no
role in it. -/
lemma eventLines_filter_uid_gen (now : PyDateTime) (ev : IcsEvent)
    (hu : ev.uid = none) :
    (eventLines now ev).filter isUIDLine =
      ["UID:" ++ generatedUid (ev.name.getD "")
        (match wallclock_as_local_naive (ensure_datetime ev.beginT) with
         | some d => format_dt_as_local_string d
         | none => "")] := by
  rcases hB : wallclock_as_local_naive (ensure_datetime ev.beginT) with _ | bd <;>
  rcases hE : wallclock_as_local_naive (ensure_datetime ev.endT) with _ | ed <;>
  rcases hC : ensure_datetime ev.created with _ | cd <;>
  simp [eventLines, hu, hB, hE, hC, filter_ite, List.filter_append,
    uidL_begin, uidL_endev, uidL_self, uidL_summary, uidL_desc, uidL_loc,
    uidL_dtstart, uidL_dtend, uidL_created, uidL_dtstamp]

/-- Filtering a concatenation of blocks that each contribute exactly one
matching line yields those lines in block order. -/
lemma filter_flatMap_eq_map {α : Type} (p : String → Bool) (f : α → List String)
    (g : α → String) (h : ∀ a, (f a).filter p = [g a]) (l : List α) :
    (l.flatMap f).filter p = l.map g := by
  induction l with
  | nil => rfl
  | cons a t ih => simp [List.filter_append, h a, ih]

/-! ## Claim C1 -/

/-- C1: normalization preserves the displayed wall-clock digits, not the
absolute instant.  Whatever zone information the source start carries, the
normalized value has exactly the displayed calendar/clock components with
no attached zone, and the record's only `DTSTART` line serializes those
digits under `TZID=Europe/Berlin`. -/
theorem claim_C1 (now : PyDateTime) (ev : IcsEvent) (v : IcsTimeValue)
    (hb : ev.beginT = some v) :
    wallclock_as_local_naive (ensure_datetime ev.beginT) =
      some { year := v.displayed.year, month := v.displayed.month,
             day := v.displayed.day, hour := v.displayed.hour,
             minute := v.displayed.minute, second := v.displayed.second,
             microsecond := v.displayed.microsecond, tzoff := none } ∧
    (eventLines now ev).filter isDTSTARTLine =
      ["DTSTART;TZID=Europe/Berlin:" ++ format_dt_as_local_string v.displayed] := by
  have hwc : wallclock_as_local_naive (ensure_datetime ev.beginT) =
      some { year := v.displayed.year, month := v.displayed.month,
             day := v.displayed.day, hour := v.displayed.hour,
             minute := v.displayed.minute, second := v.displayed.second,
             microsecond := v.displayed.microsecond, tzoff := none } := by
    rw [hb]
    cases v <;> rfl
  refine ⟨hwc, ?_⟩
  rw [eventLines_filter_dtstart now ev _ hwc]
  rfl

/-- C1 witness event: a start of 18:00 carried with an explicit non-Berlin
offset (+3 hours). -/
def evC1 : IcsEvent :=
  { uid := some "u", name := some "G", description := none, location := none,
    beginT := some (IcsTimeValue.plain ⟨2025, 3, 9, 18, 0, 0, 0, some 10800⟩),
    endT := none, created := none }

/-- C1 witness: the 18:00 start in a foreign zone serializes as local
18:00 under the Berlin `TZID`. -/
theorem claim_C1_witness :
    wallclock_as_local_naive (ensure_datetime evC1.beginT) =
      some ⟨2025, 3, 9, 18, 0, 0, 0, none⟩ ∧
    (eventLines ⟨2025, 1, 1, 0, 0, 0, 0, some 0⟩ evC1).filter isDTSTARTLine =
      ["DTSTART;TZID=Europe/Berlin:20250309T180000"] := by
  have h := claim_C1 ⟨2025, 1, 1, 0, 0, 0, 0, some 0⟩ evC1
    (IcsTimeValue.plain ⟨2025, 3, 9, 18, 0, 0, 0, some 10800⟩) rfl
  refine ⟨h.1, ?_⟩
  rw [h.2]
  rfl

/-! ## Claim C9 -/

/-- The hex digest always has the fixed width of 40 characters. -/
lemma toHex8_length (n : Nat) : (toHex8 n).length = 8 := by
  simp [toHex8]

lemma sha1Hex_length (msg : List Nat) : (sha1Hex msg).length = 40 := by
  rw [sha1Hex]
  show (_ ++ _ ++ _ ++ _ ++ _ : List Char).length = 40
  simp [toHex8_length]

/-- C9: an event with no native identifier gets a generated identifier
that is a function of the cleaned title and formatted local start only —
two builds at different times produce the identical `UID` line — and the
identifier is a fixed-width (40 hex digit) token plus the `@generated`
tag. -/
theorem claim_C9 (now1 now2 : PyDateTime) (ev : IcsEvent) (hu : ev.uid = none) :
    (eventLines now1 ev).filter isUIDLine = (eventLines now2 ev).filter isUIDLine ∧
    (eventLines now1 ev).filter isUIDLine =
      ["UID:" ++ generatedUid (ev.name.getD "")
        (match wallclock_as_local_naive (ensure_datetime ev.beginT) with
         | some d => format_dt_as_local_string d
         | none => "")] ∧
    (∀ s f, (generatedUid s f).length = 50) := by
  have h1 := eventLines_filter_uid_gen now1 ev hu
  have h2 := eventLines_filter_uid_gen now2 ev hu
  refine ⟨h1.trans h2.symm, h1, ?_⟩
  intro s f
  rw [generatedUid, String.length_append, sha1Hex_length]
  rfl

/-- C9 witness event: no native identifier, a cleaned title, and a start
time. -/
def evC9 : IcsEvent :=
  { uid := none, name := some "Löwen Braunschweig vs. X", description := none,
    location := none,
    beginT := some (IcsTimeValue.plain ⟨2025, 3, 9, 18, 0, 0, 0, none⟩),
    endT := none, created := none }

/-- C9 witness: two builds of the same uid-less event at different clock
instants agree on the generated identifier line. -/
theorem claim_C9_witness :
    (eventLines ⟨2025, 1, 1, 0, 0, 0, 0, some 0⟩ evC9).filter isUIDLine =
      (eventLines ⟨2026, 2, 2, 2, 2, 2, 0, some 0⟩ evC9).filter isUIDLine ∧
    (eventLines ⟨2025, 1, 1, 0, 0, 0, 0, some 0⟩ evC9).filter isUIDLine =
      ["UID:" ++ generatedUid (evC9.name.getD "")
        (match wallclock_as_local_naive (ensure_datetime evC9.beginT) with
         | some d => format_dt_as_local_string d
         | none => "")] ∧
    (∀ s f, (generatedUid s f).length = 50) :=
  claim_C9 ⟨2025, 1, 1, 0, 0, 0, 0, some 0⟩ ⟨2026, 2, 2, 2, 2, 2, 0, some 0⟩ evC9 rfl

end BBLB
